import Mathlib

/-!
Shallow embedding of `src/shelf_track.py`, a console bookstore manager over
an SQLite database with two tables (`author`, `book`), together with proofs
about its storage-layer and operation-layer behaviour.

Modelling conventions:
* A table is a list of rows; a table that has not been created is `none`
  (querying it raises `no such table` in SQLite, modelled as `Except.error`).
* Python `int(...)` on operator input is `pyInt : String → Option Int`.
* Python `str.strip()` is `pyStrip`.
* SQLite `LIKE` (default behaviour: ASCII-case-insensitive, with `%` and `_`
  wildcards) is `sqliteLike`.
* Each printed line that carries information is an `Output` value; operations
  return `Except SqlError (DB × List Output)`, where `Except.error` models an
  exception escaping the function (no `try` in the source) and `Except.ok`
  models normal return.  The bodies guarded by `try`/`except` in the source
  are the `...Raw` functions; `catchPrint` models the `except` clause, which
  prints one error line and restores the rolled-back state.
-/

/-- Pairs of corresponding upper/lower case ASCII letters, used to model
SQLite's default `LIKE` case folding (ASCII letters only). -/
def upperLower : List (Char × Char) :=
  [('A','a'), ('B','b'), ('C','c'), ('D','d'), ('E','e'), ('F','f'), ('G','g'),
   ('H','h'), ('I','i'), ('J','j'), ('K','k'), ('L','l'), ('M','m'), ('N','n'),
   ('O','o'), ('P','p'), ('Q','q'), ('R','r'), ('S','s'), ('T','t'), ('U','u'),
   ('V','v'), ('W','w'), ('X','x'), ('Y','y'), ('Z','z')]

/-- ASCII lower-casing of one character (non-ASCII-uppercase characters are
returned unchanged), as SQLite's default `LIKE` applies it. -/
def lowerAscii (c : Char) : Char :=
  match upperLower.find? (fun p => p.1 = c) with
  | some p => p.2
  | none => c

/-- Python `str.strip()`: drop whitespace from both ends. -/
def pyStrip (s : String) : String :=
  String.mk (((s.data.dropWhile Char.isWhitespace).reverse.dropWhile
    Char.isWhitespace).reverse)

/-- Value of a nonempty all-decimal-digit character list, `none` otherwise. -/
def decDigits (l : List Char) : Option Nat :=
  if !l.isEmpty && l.all Char.isDigit then
    some (l.foldl (fun a c => a * 10 + (c.toNat - 48)) 0)
  else none

/-- Python `int(...)` applied to operator input: optional surrounding
whitespace, optional sign, then decimal digits; anything else raises
`ValueError`, modelled as `none`. -/
def pyInt (s : String) : Option Int :=
  match (pyStrip s).data with
  | '-' :: ds => (decDigits ds).map (fun n => -(n : Int))
  | '+' :: ds => (decDigits ds).map (fun n => (n : Int))
  | ds => (decDigits ds).map (fun n => (n : Int))

/-- Core of SQLite `LIKE` over already-case-folded character lists:
`%` matches any sequence, `_` matches any single character, any other
pattern character matches itself. -/
def likeChars : List Char → List Char → Bool
  | [], s => s.isEmpty
  | p :: ps, s =>
    if p = '%' then s.tails.any (fun t => likeChars ps t)
    else
      match s with
      | [] => false
      | c :: s2 => (p = '_' || p = c) && likeChars ps s2

/-- SQLite `expr LIKE pattern` with default options: both sides are
ASCII-case-folded, then matched with `%`/`_` wildcards. -/
def sqliteLike (pattern s : String) : Bool :=
  likeChars (pattern.data.map lowerAscii) (s.data.map lowerAscii)

/-- Case-insensitive (ASCII) substring containment, the reading of
"title contains the keyword" used by the specification. -/
def containsCI (hay needle : String) : Bool :=
  decide ((needle.data.map lowerAscii) <:+: (hay.data.map lowerAscii))

/-- A keyword is wildcard-free when it uses no SQLite `LIKE` metacharacter. -/
def wildcardFree (s : String) : Prop :=
  ∀ c ∈ s.data, c ≠ '%' ∧ c ≠ '_'

/-- Row of the `author` table: `id INTEGER PRIMARY KEY`, `name TEXT NOT NULL`,
`country TEXT NOT NULL`. -/
structure AuthorRow where
  id : Int
  name : String
  country : String
deriving Repr, DecidableEq

/-- Row of the `book` table: `id INTEGER PRIMARY KEY`, `title TEXT NOT NULL`,
`authorID INTEGER NOT NULL` (declared `FOREIGN KEY`, not enforced),
`qty INTEGER NOT NULL`. -/
structure BookRow where
  id : Int
  title : String
  authorID : Int
  qty : Int
deriving Repr, DecidableEq

/-- State of `ebookstore.db`: each table is `none` until created. -/
structure DB where
  authorTab : Option (List AuthorRow)
  bookTab : Option (List BookRow)
deriving Repr, DecidableEq

/-- Exceptions that the SQLite layer or `int(...)` can raise. -/
inductive SqlError where
  | noSuchTable : String → SqlError
  | uniqueViolation : SqlError
  | valueError : SqlError
deriving Repr, DecidableEq

/-- Informative printed lines of the five operations. -/
inductive Output where
  | addedBook : String → Output
  | errorAdding : Output
  | updated : Output
  | errorUpdating : Output
  | authorNotFound : Output
  | invalidChoice : Output
  | deleted : Int → Output
  | errorDeleting : Output
  | searchResults : List BookRow → Output
  | noBooksFound : Output
  | bookDetails : List (String × String × String) → Output
deriving Repr, DecidableEq

/-- Database state before any table has been created. -/
def freshDB : DB := ⟨none, none⟩

/-- Sample author rows inserted by `populate_tables` when `author` is empty. -/
def seedAuthors : List AuthorRow :=
  [⟨1290, "Charles Dickens", "England"⟩,
   ⟨8937, "J.K. Rowling", "England"⟩,
   ⟨2356, "C.S. Lewis", "Ireland"⟩,
   ⟨6380, "J.R.R. Tolkien", "South Africa"⟩,
   ⟨5620, "Lewis Carroll", "England"⟩]

/-- Sample book rows inserted by `populate_tables` when `book` is empty. -/
def seedBooks : List BookRow :=
  [⟨3001, "A Tale of Two Cities", 1290, 30⟩,
   ⟨3002, "Harry Potter and the Philosopher\x27s Stone", 8937, 40⟩,
   ⟨3003, "The Lion, the Witch and the Wardrobe", 2356, 25⟩,
   ⟨3004, "The Lord of the Rings", 6380, 37⟩,
   ⟨3005, "Alice\x27s Adventures in Wonderland", 5620, 12⟩]

/-- Database state right after a first-run `create_tables(); populate_tables()`. -/
def seededDB : DB := ⟨some seedAuthors, some seedBooks⟩

/-- SELECT on the `author` table; raises `no such table` when absent. -/
def DB.selectAuthors (db : DB) : Except SqlError (List AuthorRow) :=
  match db.authorTab with
  | some l => .ok l
  | none => .error (.noSuchTable "author")

/-- SELECT on the `book` table; raises `no such table` when absent. -/
def DB.selectBooks (db : DB) : Except SqlError (List BookRow) :=
  match db.bookTab with
  | some l => .ok l
  | none => .error (.noSuchTable "book")

/-- `create_tables()`: CREATE TABLE IF NOT EXISTS for `author` and `book`;
an existing table (and its rows) is left untouched, a missing table becomes
an empty one. -/
def create_tables (db : DB) : DB :=
  { authorTab := some (db.authorTab.getD []),
    bookTab := some (db.bookTab.getD []) }

/-- `populate_tables()`: for each table, SELECT COUNT and insert the sample
rows only when the count is zero. -/
def populate_tables (db : DB) : Except SqlError DB :=
  match db.authorTab with
  | none => .error (.noSuchTable "author")
  | some as =>
    let db1 : DB := if as.length = 0 then { db with authorTab := some seedAuthors } else db
    match db1.bookTab with
    | none => .error (.noSuchTable "book")
    | some bs =>
      .ok (if bs.length = 0 then { db1 with bookTab := some seedBooks } else db1)

/-- One run of the startup sequence `create_tables(); populate_tables()`. -/
def initStore (db : DB) : Except SqlError DB :=
  populate_tables (create_tables db)

/-- `n` successive runs of the startup sequence. -/
def initIter : Nat → DB → Except SqlError DB
  | 0, db => .ok db
  | n + 1, db =>
    match initStore db with
    | .error e => .error e
    | .ok db2 => initIter n db2

/-- Semantics of `UPDATE book SET <field> ... WHERE id = ?`:
apply `f` to every row whose `id` matches (zero rows match silently). -/
def updateWhereId (f : BookRow → BookRow) (bs : List BookRow) (bid : Int) :
    List BookRow :=
  bs.map (fun b => if b.id = bid then f b else b)

/-- The join in update option 4:
`SELECT a.id, a.name, a.country FROM author a JOIN book b ON a.id = b.authorID
WHERE b.id = ?` followed by `fetchone()`. -/
def joinAuthorOfBook (as : List AuthorRow) (bs : List BookRow) (bid : Int) :
    Option AuthorRow :=
  match bs.find? (fun b => b.id == bid) with
  | none => none
  | some b => as.find? (fun a => a.id == b.authorID)

/-- Body of `enter_book()` (the part inside `try`): parse id, strip title,
parse author id and quantity, then `INSERT INTO book VALUES (?, ?, ?, ?)`;
a duplicate primary key raises `IntegrityError`. -/
def enterBookRaw (db : DB) (idS titleS authS qtyS : String) :
    Except SqlError (DB × List Output) :=
  match pyInt idS with
  | none => .error .valueError
  | some id =>
    let title := pyStrip titleS
    match pyInt authS with
    | none => .error .valueError
    | some authorID =>
      match pyInt qtyS with
      | none => .error .valueError
      | some qty =>
        match db.bookTab with
        | none => .error (.noSuchTable "book")
        | some bs =>
          if bs.any (fun b => b.id == id) then .error .uniqueViolation
          else
            .ok ({ db with bookTab := some (bs ++ [⟨id, title, authorID, qty⟩]) },
                 [.addedBook title])

/-- Body of `update_book()` (the part inside `try`): parse the target book id,
dispatch on the menu choice; options 1-3 issue an `UPDATE book` statement,
option 4 joins to find the linked author and issues an `UPDATE author`
statement, defaulting blank (stripped-empty) inputs to the current values.
The source commits and prints the success line after the dispatch, even for
an invalid choice or a not-found author. -/
def updateBookRaw (db : DB) (bookIdS choiceS fieldS nameS countryS : String) :
    Except SqlError (DB × List Output) :=
  match pyInt bookIdS with
  | none => .error .valueError
  | some book_id =>
    if choiceS = "1" then
      match pyInt fieldS with
      | none => .error .valueError
      | some qty =>
        match db.bookTab with
        | none => .error (.noSuchTable "book")
        | some bs =>
          .ok ({ db with
                 bookTab := some (updateWhereId (fun b => { b with qty := qty }) bs book_id) },
               [.updated])
    else if choiceS = "2" then
      match db.bookTab with
      | none => .error (.noSuchTable "book")
      | some bs =>
        .ok ({ db with
               bookTab := some (updateWhereId (fun b => { b with title := fieldS }) bs book_id) },
             [.updated])
    else if choiceS = "3" then
      match pyInt fieldS with
      | none => .error .valueError
      | some aid =>
        match db.bookTab with
        | none => .error (.noSuchTable "book")
        | some bs =>
          .ok ({ db with
                 bookTab := some (updateWhereId (fun b => { b with authorID := aid }) bs book_id) },
               [.updated])
    else if choiceS = "4" then
      match db.authorTab with
      | none => .error (.noSuchTable "author")
      | some as =>
        match db.bookTab with
        | none => .error (.noSuchTable "book")
        | some bs =>
          match joinAuthorOfBook as bs book_id with
          | none => .ok (db, [.authorNotFound, .updated])
          | some a =>
            let new_name := if pyStrip nameS = "" then a.name else pyStrip nameS
            let new_country := if pyStrip countryS = "" then a.country else pyStrip countryS
            .ok ({ db with
                   authorTab := some (as.map (fun x =>
                     if x.id = a.id then { x with name := new_name, country := new_country }
                     else x)) },
                 [.updated])
    else
      .ok (db, [.invalidChoice, .updated])

/-- Body of `delete_book()` (the part inside `try`): parse the id and issue
`DELETE FROM book WHERE id = ?` (zero matched rows is a silent no-op). -/
def deleteBookRaw (db : DB) (idS : String) : Except SqlError (DB × List Output) :=
  match pyInt idS with
  | none => .error .valueError
  | some book_id =>
    match db.bookTab with
    | none => .error (.noSuchTable "book")
    | some bs =>
      .ok ({ db with bookTab := some (bs.filter (fun b => !(b.id == book_id))) },
           [.deleted book_id])

/-- The `except Exception` clause shared by `enter_book`, `update_book` and
`delete_book`: any raised exception becomes one printed error line, and the
connection context manager rolls the uncommitted statements back, so the
caller observes the original database state. -/
def catchPrint (db : DB) (msg : Output) (r : Except SqlError (DB × List Output)) :
    Except SqlError (DB × List Output) :=
  match r with
  | .ok x => .ok x
  | .error _ => .ok (db, [msg])

/-- `enter_book()`: guarded body. -/
def enter_book (db : DB) (idS titleS authS qtyS : String) :
    Except SqlError (DB × List Output) :=
  catchPrint db .errorAdding (enterBookRaw db idS titleS authS qtyS)

/-- `update_book()`: guarded body. -/
def update_book (db : DB) (bookIdS choiceS fieldS nameS countryS : String) :
    Except SqlError (DB × List Output) :=
  catchPrint db .errorUpdating (updateBookRaw db bookIdS choiceS fieldS nameS countryS)

/-- `delete_book()`: guarded body. -/
def delete_book (db : DB) (idS : String) : Except SqlError (DB × List Output) :=
  catchPrint db .errorDeleting (deleteBookRaw db idS)

/-- `search_books()`: NOT guarded by any `try` in the source.  Strips the
keyword, runs `SELECT * FROM book WHERE title LIKE '%keyword%'`, prints the
matching rows, or a not-found line when there is no match. -/
def search_books (db : DB) (inputS : String) : Except SqlError (DB × List Output) :=
  let keyword := pyStrip inputS
  match db.bookTab with
  | none => .error (.noSuchTable "book")
  | some bs =>
    let results := bs.filter (fun b => sqliteLike ("%" ++ keyword ++ "%") b.title)
    if results.isEmpty then .ok (db, [.noBooksFound])
    else .ok (db, [.searchResults results])

/-- `view_all_books()`: NOT guarded by any `try` in the source.  Runs
`SELECT b.title, a.name, a.country FROM book b INNER JOIN author a ON
b.authorID = a.id` and prints every joined row. -/
def view_all_books (db : DB) : Except SqlError (DB × List Output) :=
  match db.bookTab with
  | none => .error (.noSuchTable "book")
  | some bs =>
    match db.authorTab with
    | none => .error (.noSuchTable "author")
    | some as =>
      .ok (db, [.bookDetails (bs.filterMap (fun b =>
        (as.find? (fun a => a.id == b.authorID)).map
          (fun a => (b.title, a.name, a.country))))])

example : pyInt "3001" = some 3001 := by decide
example : pyInt " -42 " = some (-42) := by decide
example : pyInt "12a" = none := by decide
example : pyStrip "  X y " = "X y" := by decide
example : sqliteLike "%lion%" "The Lion, the Witch and the Wardrobe" = true := by decide
example : sqliteLike "%lion%" "The Lord of the Rings" = false := by decide
example : sqliteLike "%%" "anything" = true := by decide

/-! Helper lemmas about the storage layer. -/

lemma initStore_eq (db : DB) :
    initStore db = .ok
      { authorTab := some (if (db.authorTab.getD []).length = 0 then seedAuthors
                           else db.authorTab.getD []),
        bookTab := some (if (db.bookTab.getD []).length = 0 then seedBooks
                         else db.bookTab.getD []) } := by
  unfold initStore populate_tables create_tables
  split_ifs <;> simp_all

lemma initStore_fresh : initStore freshDB = .ok seededDB := rfl

lemma initStore_seeded : initStore seededDB = .ok seededDB := rfl

lemma initIter_seeded : ∀ n : Nat, initIter n seededDB = .ok seededDB := by
  intro n
  induction n with
  | zero => rfl
  | succ n ih => rw [initIter, initStore_seeded]; exact ih

lemma DB.withBook_self (db : DB) (bs : List BookRow) (h : db.bookTab = some bs) :
    ({ db with bookTab := some bs } : DB) = db := by
  cases db; cases h; rfl

lemma DB.withAuthor_self (db : DB) (as : List AuthorRow) (h : db.authorTab = some as) :
    ({ db with authorTab := some as } : DB) = db := by
  cases db; cases h; rfl

/-- C1: running `create_tables` followed by `populate_tables` any number of
times from a fresh store leaves exactly the five seed authors (ids 1290,
8937, 2356, 6380, 5620) and five seed books (ids 3001-3005); a table is
seeded only when empty, and re-running the startup sequence on a non-empty
table adds no row and alters no existing row (manually inserted rows
included). -/
theorem storage_init_idempotent :
    (∀ n : Nat, initIter (n + 1) freshDB = .ok seededDB) ∧
    (seededDB.authorTab = some seedAuthors ∧ seededDB.bookTab = some seedBooks ∧
     seedAuthors.map AuthorRow.id = [1290, 8937, 2356, 6380, 5620] ∧
     seedBooks.map BookRow.id = [3001, 3002, 3003, 3004, 3005]) ∧
    (∀ (db : DB) (as : List AuthorRow), db.authorTab = some as → as ≠ [] →
      ∃ db2, initStore db = .ok db2 ∧ db2.authorTab = some as) ∧
    (∀ (db : DB) (bs : List BookRow), db.bookTab = some bs → bs ≠ [] →
      ∃ db2, initStore db = .ok db2 ∧ db2.bookTab = some bs) := by
  refine ⟨?_, ⟨rfl, rfl, by decide, by decide⟩, ?_, ?_⟩
  · intro n
    rw [initIter, initStore_fresh]
    exact initIter_seeded n
  · intro db as h hne
    rw [initStore_eq]
    refine ⟨_, rfl, ?_⟩
    simp only [h, Option.getD_some, List.length_eq_zero]
    rw [if_neg hne]
  · intro db bs h hne
    rw [initStore_eq]
    refine ⟨_, rfl, ?_⟩
    simp only [h, Option.getD_some, List.length_eq_zero]
    rw [if_neg hne]

/-- Witness for C1: three runs from scratch give exactly the seeded store,
and re-running on a store holding a manually added sixth author keeps that
author table identical. -/
theorem storage_init_idempotent_witness :
    initIter 3 freshDB = .ok seededDB ∧
    (∃ db2, initStore ⟨some (seedAuthors ++ [⟨7777, "Manually Added", "Nowhere"⟩]),
                       some seedBooks⟩ = .ok db2 ∧
            db2.authorTab = some (seedAuthors ++ [⟨7777, "Manually Added", "Nowhere"⟩])) :=
  ⟨storage_init_idempotent.1 2,
   storage_init_idempotent.2.2.1 _ _ rfl (by decide)⟩

/-- C3 (amended): `enter_book`, `update_book` and `delete_book` wrap their
whole body in a `try`/`except` that converts any exception into a printed
error line, so they never propagate an exception to the menu loop;
`search_books` and `view_all_books` contain no handler, so a query-execution
failure (for example a missing table) propagates out of them. -/
theorem guarded_ops_catch_all :
    (∀ (db : DB) (a b c d : String), ∃ r, enter_book db a b c d = .ok r) ∧
    (∀ (db : DB) (a b c d e : String), ∃ r, update_book db a b c d e = .ok r) ∧
    (∀ (db : DB) (a : String), ∃ r, delete_book db a = .ok r) ∧
    (∃ (db : DB) (kw : String) (e : SqlError), search_books db kw = .error e) ∧
    (∃ (db : DB) (e : SqlError), view_all_books db = .error e) := by
  refine ⟨?_, ?_, ?_, ⟨⟨some [], none⟩, "x", .noSuchTable "book", rfl⟩,
          ⟨⟨some [], none⟩, .noSuchTable "book", rfl⟩⟩
  · intro db a b c d
    unfold enter_book catchPrint
    cases enterBookRaw db a b c d <;> exact ⟨_, rfl⟩
  · intro db a b c d e
    unfold update_book catchPrint
    cases updateBookRaw db a b c d e <;> exact ⟨_, rfl⟩
  · intro db a
    unfold delete_book catchPrint
    cases deleteBookRaw db a <;> exact ⟨_, rfl⟩

/-- Witness for C3 (amended): concrete runs of the three guarded operations
return normally even on a store with no tables at all. -/
theorem guarded_ops_catch_all_witness :
    (∃ r, enter_book freshDB "9" "T" "8" "7" = .ok r) ∧
    (∃ r, update_book freshDB "3001" "1" "5" "" "" = .ok r) ∧
    (∃ r, delete_book freshDB "3001" = .ok r) :=
  ⟨guarded_ops_catch_all.1 freshDB "9" "T" "8" "7",
   guarded_ops_catch_all.2.1 freshDB "3001" "1" "5" "" "",
   guarded_ops_catch_all.2.2.1 freshDB "3001"⟩

/-- Counterexample to C3 as stated: on a store whose `book` table is missing,
`search_books` and `view_all_books` let the `no such table` exception escape
(no handler exists in their bodies), while `enter_book` on the very same
store swallows it and reports a printed error line. -/
theorem ops_catch_all_cex :
    search_books ⟨some [], none⟩ "x" = .error (.noSuchTable "book") ∧
    view_all_books ⟨some [], none⟩ = .error (.noSuchTable "book") ∧
    enter_book ⟨some [], none⟩ "1" "T" "2" "3" =
      .ok (⟨some [], none⟩, [.errorAdding]) :=
  ⟨rfl, rfl, rfl⟩

/-- C9: `delete_book` with an integer-parseable id removes exactly the rows
of `book` whose id matches (at most one row ever matches, and none is a
silent success); every other book row and the whole author table are
untouched, and success is reported in both cases. -/
theorem delete_book_spec :
    ∀ (db : DB) (bs : List BookRow) (idS : String) (bid : Int),
      pyInt idS = some bid → db.bookTab = some bs →
      delete_book db idS =
        .ok ({ db with bookTab := some (bs.filter (fun b => !(b.id == bid))) },
             [.deleted bid]) ∧
      ((∀ b ∈ bs, b.id ≠ bid) → delete_book db idS = .ok (db, [.deleted bid])) ∧
      (∀ b ∈ bs, b.id ≠ bid → b ∈ bs.filter (fun b => !(b.id == bid))) ∧
      (∀ b ∈ bs.filter (fun b => !(b.id == bid)), b ∈ bs ∧ b.id ≠ bid) := by
  intro db bs idS bid hid hb
  have hrun : delete_book db idS =
      .ok ({ db with bookTab := some (bs.filter (fun b => !(b.id == bid))) },
           [.deleted bid]) := by
    unfold delete_book deleteBookRaw catchPrint
    rw [hid, hb]
  refine ⟨hrun, ?_, ?_, ?_⟩
  · intro hnone
    rw [hrun]
    have hf : bs.filter (fun b => !(b.id == bid)) = bs := by
      rw [List.filter_eq_self]
      intro b hbmem
      simpa using hnone b hbmem
    rw [hf, DB.withBook_self db bs hb]
  · intro b hbmem hne
    rw [List.mem_filter]
    exact ⟨hbmem, by simpa using hne⟩
  · intro b hbmem
    rw [List.mem_filter] at hbmem
    exact ⟨hbmem.1, by simpa using hbmem.2⟩

/-! Helper lemmas about `updateWhereId` and `find?`. -/

lemma updateWhereId_nomatch (f : BookRow → BookRow) (bs : List BookRow) (bid : Int)
    (h : ∀ b ∈ bs, b.id ≠ bid) : updateWhereId f bs bid = bs := by
  unfold updateWhereId
  have : bs.map (fun b => if b.id = bid then f b else b) = bs.map id := by
    apply List.map_congr_left
    intro b hb
    simp [h b hb]
  rw [this, List.map_id]

lemma find?_of_nodup_ids (as : List AuthorRow) (h : (as.map AuthorRow.id).Nodup)
    (a : AuthorRow) (ha : a ∈ as) (i : Int) (hi : a.id = i) :
    as.find? (fun x => x.id == i) = some a := by
  induction as with
  | nil => cases ha
  | cons x t ih =>
    rw [List.map_cons, List.nodup_cons] at h
    by_cases hx : x.id = i
    · rw [List.find?_cons_of_pos _ (by simpa using hx)]
      rcases List.mem_cons.mp ha with h1 | h1
      · rw [h1]
      · exact absurd (by rw [hx, ← hi]; exact List.mem_map_of_mem AuthorRow.id h1) h.1
    · rw [List.find?_cons_of_neg _ (by simpa using hx)]
      rcases List.mem_cons.mp ha with h1 | h1
      · exact absurd (by rw [← h1]; exact hi) hx
      · exact ih h.2 h1

/-! Helper lemmas about the `LIKE` matcher. -/

lemma likeChars_cons (p : Char) (ps : List Char) (s : List Char) :
    likeChars (p :: ps) s =
      if p = '%' then s.tails.any (fun t => likeChars ps t)
      else
        match s with
        | [] => false
        | c :: s2 => (p = '_' || p = c) && likeChars ps s2 := by
  rw [likeChars.eq_def]

lemma likeChars_star (ps : List Char) (s : List Char) :
    likeChars ('%' :: ps) s = s.tails.any (fun t => likeChars ps t) := by
  rw [likeChars_cons]; simp

lemma likeChars_lit (p : Char) (ps : List Char) (c : Char) (s : List Char)
    (hp : p ≠ '%') :
    likeChars (p :: ps) (c :: s) = ((p = '_' || p = c) && likeChars ps s) := by
  rw [likeChars_cons]; simp [hp]

lemma likeChars_lit_nil (p : Char) (ps : List Char) (hp : p ≠ '%') :
    likeChars (p :: ps) [] = false := by
  rw [likeChars_cons]; simp [hp]

lemma likeChars_star_iff (ps : List Char) (s : List Char) :
    likeChars ('%' :: ps) s = true ↔ ∃ t, t <:+ s ∧ likeChars ps t = true := by
  rw [likeChars_star, List.any_eq_true]
  constructor
  · rintro ⟨t, ht, h⟩; exact ⟨t, (List.mem_tails t s).mp ht, h⟩
  · rintro ⟨t, ht, h⟩; exact ⟨t, (List.mem_tails t s).mpr ht, h⟩

lemma likeChars_pct (s : List Char) : likeChars ['%'] s = true :=
  (likeChars_star_iff [] s).mpr ⟨[], List.nil_suffix, rfl⟩

lemma likeChars_pct_pct (s : List Char) : likeChars ['%', '%'] s = true :=
  (likeChars_star_iff ['%'] s).mpr ⟨s, List.suffix_refl s, likeChars_pct s⟩

lemma lowerAscii_eq_pct (c : Char) (h : lowerAscii c = '%') : c = '%' := by
  unfold lowerAscii at h
  rcases hf : upperLower.find? (fun p => p.1 = c) with _ | p
  · rw [hf] at h; exact h
  · rw [hf] at h
    have hm := List.mem_of_find?_eq_some hf
    have hall : ∀ q ∈ upperLower, q.2 ≠ '%' := by decide
    exact absurd h (hall p hm)

lemma lowerAscii_eq_us (c : Char) (h : lowerAscii c = '_') : c = '_' := by
  unfold lowerAscii at h
  rcases hf : upperLower.find? (fun p => p.1 = c) with _ | p
  · rw [hf] at h; exact h
  · rw [hf] at h
    have hm := List.mem_of_find?_eq_some hf
    have hall : ∀ q ∈ upperLower, q.2 ≠ '_' := by decide
    exact absurd h (hall p hm)

lemma likeChars_lits_pref (ps : List Char) (hps : ∀ c ∈ ps, c ≠ '%' ∧ c ≠ '_') :
    ∀ s : List Char, likeChars (ps ++ ['%']) s = true ↔ ps <+: s := by
  induction ps with
  | nil =>
    intro s
    constructor
    · intro _; exact List.nil_prefix
    · intro _
      rw [List.nil_append, likeChars_star, List.any_eq_true]
      exact ⟨[], (List.mem_tails [] s).mpr List.nil_suffix, rfl⟩
  | cons c ps ih =>
    intro s
    have hc := hps c (List.mem_cons_self c ps)
    have hps2 : ∀ x ∈ ps, x ≠ '%' ∧ x ≠ '_' :=
      fun x hx => hps x (List.mem_cons_of_mem c hx)
    cases s with
    | nil =>
      rw [List.cons_append]
      constructor
      · intro h
        rw [likeChars_lit_nil c _ hc.1] at h
        cases h
      · intro h
        exact absurd (List.prefix_nil.mp h) (by simp)
    | cons d s2 =>
      rw [List.cons_append, likeChars_lit c _ d s2 hc.1, List.cons_prefix_cons]
      rw [Bool.and_eq_true, Bool.or_eq_true]
      simp only [decide_eq_true_eq]
      constructor
      · rintro ⟨hcd | hcd, hrest⟩
        · exact absurd hcd hc.2
        · exact ⟨hcd, (ih hps2 s2).mp hrest⟩
      · rintro ⟨hcd, hpre⟩
        exact ⟨Or.inr hcd, (ih hps2 s2).mpr hpre⟩

lemma likeChars_infix (ps : List Char) (hps : ∀ c ∈ ps, c ≠ '%' ∧ c ≠ '_')
    (s : List Char) :
    likeChars ('%' :: (ps ++ ['%'])) s = true ↔ ps <:+: s := by
  rw [likeChars_star_iff]
  constructor
  · rintro ⟨t, hts, h⟩
    exact List.infix_iff_prefix_suffix.mpr
      ⟨t, (likeChars_lits_pref ps hps t).mp h, hts⟩
  · intro h
    rcases List.infix_iff_prefix_suffix.mp h with ⟨t, hpt, hts⟩
    exact ⟨t, hts, (likeChars_lits_pref ps hps t).mpr hpt⟩

lemma sqliteLike_substring (kw t : String) (h : wildcardFree kw) :
    sqliteLike ("%" ++ kw ++ "%") t = true ↔ containsCI t kw = true := by
  have hd : ("%" ++ kw ++ "%").data = '%' :: kw.data ++ ['%'] := by
    rw [String.data_append, String.data_append]
    rfl
  have hpc : lowerAscii '%' = '%' := rfl
  have hmap : ("%" ++ kw ++ "%").data.map lowerAscii =
      '%' :: (kw.data.map lowerAscii ++ ['%']) := by
    rw [hd]
    simp [hpc]
  have hps : ∀ c ∈ kw.data.map lowerAscii, c ≠ '%' ∧ c ≠ '_' := by
    intro c hc
    rcases List.mem_map.mp hc with ⟨c0, hc0, rfl⟩
    have h0 := h c0 hc0
    exact ⟨fun hq => h0.1 (lowerAscii_eq_pct c0 hq),
           fun hq => h0.2 (lowerAscii_eq_us c0 hq)⟩
  unfold sqliteLike containsCI
  rw [hmap, likeChars_infix _ hps, decide_eq_true_eq]

lemma sqliteLike_empty_kw (t : String) : sqliteLike ("%" ++ "" ++ "%") t = true := by
  unfold sqliteLike
  have hd : ("%" ++ "" ++ "%").data.map lowerAscii = ['%', '%'] := rfl
  rw [hd]
  exact likeChars_pct_pct _

lemma search_books_eq (db : DB) (bs : List BookRow) (inputS : String)
    (hb : db.bookTab = some bs) :
    search_books db inputS =
      .ok (db,
        if (bs.filter (fun b =>
              sqliteLike ("%" ++ pyStrip inputS ++ "%") b.title)).isEmpty
        then [.noBooksFound]
        else [.searchResults (bs.filter (fun b =>
          sqliteLike ("%" ++ pyStrip inputS ++ "%") b.title))]) := by
  simp only [search_books, hb]
  split <;> simp_all

/-- C6 (amended): `search_books` returns exactly the book rows whose title
matches the SQLite pattern `'%' + keyword + '%'` under the engine's default
comparison (ASCII-case-insensitive, with `%`/`_` in the keyword acting as
wildcards); for a wildcard-free keyword this is exactly case-insensitive
substring containment; the empty result prints the not-found line, the state
is returned unmodified, and keyword "lion" matches "The Lion, the Witch and
the Wardrobe" in the seeded store. -/
theorem search_books_like_semantics :
    (∀ (db : DB) (bs : List BookRow) (inputS : String), db.bookTab = some bs →
       search_books db inputS =
         .ok (db,
           if (bs.filter (fun b =>
                 sqliteLike ("%" ++ pyStrip inputS ++ "%") b.title)).isEmpty
           then [.noBooksFound]
           else [.searchResults (bs.filter (fun b =>
             sqliteLike ("%" ++ pyStrip inputS ++ "%") b.title))])) ∧
    (∀ kw t : String, wildcardFree kw →
       (sqliteLike ("%" ++ kw ++ "%") t = true ↔ containsCI t kw = true)) ∧
    search_books seededDB "lion" =
      .ok (seededDB,
           [.searchResults [⟨3003, "The Lion, the Witch and the Wardrobe", 2356, 25⟩]]) :=
  ⟨search_books_eq, sqliteLike_substring, rfl⟩

/-- Witness for C6 (amended): a concrete search on the seeded store, and the
substring reading of the match on the "lion" example. -/
theorem search_books_like_semantics_witness :
    search_books seededDB "Witch" =
      .ok (seededDB,
        if (seedBooks.filter (fun b =>
              sqliteLike ("%" ++ pyStrip "Witch" ++ "%") b.title)).isEmpty
        then [.noBooksFound]
        else [.searchResults (seedBooks.filter (fun b =>
          sqliteLike ("%" ++ pyStrip "Witch" ++ "%") b.title))]) ∧
    (sqliteLike ("%" ++ "lion" ++ "%") "The Lion, the Witch and the Wardrobe" = true ↔
      containsCI "The Lion, the Witch and the Wardrobe" "lion" = true) :=
  ⟨search_books_like_semantics.1 seededDB seedBooks "Witch" rfl,
   search_books_like_semantics.2.1 "lion" "The Lion, the Witch and the Wardrobe"
     (by unfold wildcardFree; decide)⟩

/-- Counterexample to C6 as stated: with keyword "%" every seeded book is
returned although no title contains "%" as a substring (not even
case-insensitively) — the keyword is interpreted as a `LIKE` wildcard, not
as a literal substring. -/
theorem search_substring_cex :
    search_books seededDB "%" = .ok (seededDB, [.searchResults seedBooks]) ∧
    seedBooks.all (fun b => !(containsCI b.title "%")) = true ∧
    seedBooks.all (fun b => !(decide ("%".data <:+: b.title.data))) = true :=
  ⟨rfl, by decide, by decide⟩

/-- C10: a keyword that is empty (or whitespace-only, hence empty after the
strip) makes the pattern degenerate to `'%%'`, which matches every title, so
`search_books` returns every row of `book`; the not-found line appears only
when the book table itself is empty. -/
theorem search_empty_keyword :
    ∀ (db : DB) (bs : List BookRow) (inputS : String),
      pyStrip inputS = "" → db.bookTab = some bs →
      search_books db inputS =
        .ok (db, if bs.isEmpty then [.noBooksFound] else [.searchResults bs]) := by
  intro db bs inputS hk hb
  have hall : bs.filter (fun b =>
      sqliteLike ("%" ++ pyStrip inputS ++ "%") b.title) = bs := by
    rw [List.filter_eq_self]
    intro b _
    rw [hk]
    exact sqliteLike_empty_kw b.title
  rw [search_books_eq db bs inputS hb, hall]

/-- Witness for C10: a whitespace-only keyword returns all five seed books,
and the empty keyword on an empty book table prints the not-found line. -/
theorem search_empty_keyword_witness :
    search_books seededDB "   " = .ok (seededDB, [.searchResults seedBooks]) ∧
    search_books ⟨some seedAuthors, some []⟩ "" =
      .ok (⟨some seedAuthors, some []⟩, [.noBooksFound]) :=
  ⟨search_empty_keyword seededDB seedBooks "   " (by decide) rfl,
   search_empty_keyword ⟨some seedAuthors, some []⟩ [] "" rfl rfl⟩

/-- C4: `enter_book` fails atomically.  If any numeric input fails integer
parsing, or the book id collides with an existing row's primary key, it
reports the add-failure line and both tables are exactly as before; otherwise
it appends exactly one row to `book` (with the stripped title), touching
nothing else and never checking that the authorID exists in `author`. -/
theorem enter_book_atomic :
    (∀ (db : DB) (idS tS aS qS : String),
       pyInt idS = none ∨ pyInt aS = none ∨ pyInt qS = none →
       enter_book db idS tS aS qS = .ok (db, [.errorAdding])) ∧
    (∀ (db : DB) (bs : List BookRow) (idS tS aS qS : String) (id : Int),
       pyInt idS = some id → db.bookTab = some bs → (∃ b ∈ bs, b.id = id) →
       enter_book db idS tS aS qS = .ok (db, [.errorAdding])) ∧
    (∀ (db : DB) (bs : List BookRow) (idS tS aS qS : String) (id aid q : Int),
       pyInt idS = some id → pyInt aS = some aid → pyInt qS = some q →
       db.bookTab = some bs → (∀ b ∈ bs, b.id ≠ id) →
       enter_book db idS tS aS qS =
         .ok ({ db with bookTab := some (bs ++ [⟨id, pyStrip tS, aid, q⟩]) },
              [.addedBook (pyStrip tS)])) := by
  refine ⟨?_, ?_, ?_⟩
  · intro db idS tS aS qS h
    rcases hI : pyInt idS with _ | id
    · simp [enter_book, enterBookRaw, catchPrint, hI]
    · rcases hA : pyInt aS with _ | aid
      · simp [enter_book, enterBookRaw, catchPrint, hI, hA]
      · rcases hQ : pyInt qS with _ | q
        · simp [enter_book, enterBookRaw, catchPrint, hI, hA, hQ]
        · rcases h with h | h | h <;> simp_all
  · intro db bs idS tS aS qS id hid hb hex
    have hany : bs.any (fun b => b.id == id) = true := by
      rcases hex with ⟨b, hbmem, hbid⟩
      exact List.any_eq_true.mpr ⟨b, hbmem, by simpa using hbid⟩
    rcases hA : pyInt aS with _ | aid
    · simp [enter_book, enterBookRaw, catchPrint, hid, hA]
    · rcases hQ : pyInt qS with _ | q
      · simp [enter_book, enterBookRaw, catchPrint, hid, hA, hQ]
      · simp [enter_book, enterBookRaw, catchPrint, hid, hA, hQ, hb, hany]
  · intro db bs idS tS aS qS id aid q hid ha hq hb hfresh
    have hany : bs.any (fun b => b.id == id) = false := by
      rw [List.any_eq_false]
      intro b hbmem
      simpa using hfresh b hbmem
    simp [enter_book, enterBookRaw, catchPrint, hid, ha, hq, hb, hany]

/-- Witness for C4: a non-numeric quantity and a colliding id 3001 both leave
the seeded store untouched with an error line, while the fresh id 4001 (with
an authorID 9999 that exists in no author row) appends exactly one row. -/
theorem enter_book_atomic_witness :
    enter_book seededDB "4001" "T" "1290" "many" = .ok (seededDB, [.errorAdding]) ∧
    enter_book seededDB "3001" "T" "1290" "5" = .ok (seededDB, [.errorAdding]) ∧
    enter_book seededDB "4001" " Test Book " "9999" "5" =
      .ok ({ seededDB with
             bookTab := some (seedBooks ++ [⟨4001, "Test Book", 9999, 5⟩]) },
           [.addedBook "Test Book"]) :=
  ⟨enter_book_atomic.1 seededDB "4001" "T" "1290" "many"
     (Or.inr (Or.inr (by decide))),
   enter_book_atomic.2.1 seededDB seedBooks "3001" "T" "1290" "5" 3001
     (by decide) rfl ⟨⟨3001, "A Tale of Two Cities", 1290, 30⟩, by decide, rfl⟩,
   enter_book_atomic.2.2 seededDB seedBooks "4001" " Test Book " "9999" "5"
     4001 9999 5 (by decide) (by decide) (by decide) rfl (by decide)⟩

/-- C8: `update_book` modes 1-3 with a target id matching no book row mutate
nothing, raise nothing, and still print the success line; with a matching id
exactly the named field of exactly the matching row changes, every other row
is kept as-is, and the author table is untouched. -/
theorem update_modes_1_3_frame :
    (∀ (db : DB) (bs : List BookRow) (idS fS nS cS : String) (bid q : Int),
       pyInt idS = some bid → pyInt fS = some q → db.bookTab = some bs →
       update_book db idS "1" fS nS cS =
         .ok ({ db with
                bookTab := some (updateWhereId (fun b => { b with qty := q }) bs bid) },
              [.updated]) ∧
       ((∀ b ∈ bs, b.id ≠ bid) →
         update_book db idS "1" fS nS cS = .ok (db, [.updated]))) ∧
    (∀ (db : DB) (bs : List BookRow) (idS fS nS cS : String) (bid : Int),
       pyInt idS = some bid → db.bookTab = some bs →
       update_book db idS "2" fS nS cS =
         .ok ({ db with
                bookTab := some (updateWhereId (fun b => { b with title := fS }) bs bid) },
              [.updated]) ∧
       ((∀ b ∈ bs, b.id ≠ bid) →
         update_book db idS "2" fS nS cS = .ok (db, [.updated]))) ∧
    (∀ (db : DB) (bs : List BookRow) (idS fS nS cS : String) (bid aid : Int),
       pyInt idS = some bid → pyInt fS = some aid → db.bookTab = some bs →
       update_book db idS "3" fS nS cS =
         .ok ({ db with
                bookTab := some (updateWhereId (fun b => { b with authorID := aid }) bs bid) },
              [.updated]) ∧
       ((∀ b ∈ bs, b.id ≠ bid) →
         update_book db idS "3" fS nS cS = .ok (db, [.updated]))) ∧
    (∀ (f : BookRow → BookRow) (bs : List BookRow) (bid : Int),
       (∀ b ∈ bs, b.id ≠ bid → b ∈ updateWhereId f bs bid) ∧
       (∀ b ∈ bs, b.id = bid → f b ∈ updateWhereId f bs bid) ∧
       (∀ x ∈ updateWhereId f bs bid,
          ∃ b ∈ bs, (b.id ≠ bid ∧ x = b) ∨ (b.id = bid ∧ x = f b)) ∧
       (updateWhereId f bs bid).length = bs.length) := by
  refine ⟨?_, ?_, ?_, ?_⟩
  · intro db bs idS fS nS cS bid q hid hf hb
    have hrun : update_book db idS "1" fS nS cS =
        .ok ({ db with
               bookTab := some (updateWhereId (fun b => { b with qty := q }) bs bid) },
             [.updated]) := by
      simp [update_book, updateBookRaw, catchPrint, hid, hf, hb]
    refine ⟨hrun, fun hnone => ?_⟩
    rw [hrun, updateWhereId_nomatch _ _ _ hnone, DB.withBook_self db bs hb]
  · intro db bs idS fS nS cS bid hid hb
    have hrun : update_book db idS "2" fS nS cS =
        .ok ({ db with
               bookTab := some (updateWhereId (fun b => { b with title := fS }) bs bid) },
             [.updated]) := by
      simp [update_book, updateBookRaw, catchPrint, hid, hb]
    refine ⟨hrun, fun hnone => ?_⟩
    rw [hrun, updateWhereId_nomatch _ _ _ hnone, DB.withBook_self db bs hb]
  · intro db bs idS fS nS cS bid aid hid hf hb
    have hrun : update_book db idS "3" fS nS cS =
        .ok ({ db with
               bookTab := some (updateWhereId (fun b => { b with authorID := aid }) bs bid) },
             [.updated]) := by
      simp [update_book, updateBookRaw, catchPrint, hid, hf, hb]
    refine ⟨hrun, fun hnone => ?_⟩
    rw [hrun, updateWhereId_nomatch _ _ _ hnone, DB.withBook_self db bs hb]
  · intro f bs bid
    refine ⟨?_, ?_, ?_, List.length_map bs _⟩
    · intro b hb hne
      exact List.mem_map.mpr ⟨b, hb, by simp [hne]⟩
    · intro b hb heq
      exact List.mem_map.mpr ⟨b, hb, by simp [heq]⟩
    · intro x hx
      rcases List.mem_map.mp hx with ⟨b, hb, heq⟩
      by_cases hcase : b.id = bid
      · exact ⟨b, hb, Or.inr ⟨hcase, by rw [← heq, if_pos hcase]⟩⟩
      · exact ⟨b, hb, Or.inl ⟨hcase, by rw [← heq, if_neg hcase]⟩⟩

/-- Witness for C8: updating the quantity of the absent id 9999 on the seeded
store changes nothing yet reports success, while updating book 3001's
quantity to 99 rewrites exactly that row's `qty` field. -/
theorem update_modes_1_3_frame_witness :
    update_book seededDB "9999" "1" "99" "" "" = .ok (seededDB, [.updated]) ∧
    update_book seededDB "3001" "1" "99" "" "" =
      .ok ({ seededDB with
             bookTab := some (updateWhereId (fun b => { b with qty := 99 })
               seedBooks 3001) },
           [.updated]) :=
  ⟨(update_modes_1_3_frame.1 seededDB seedBooks "9999" "99" "" "" 9999 99
      (by decide) (by decide) rfl).2 (by decide),
   (update_modes_1_3_frame.1 seededDB seedBooks "3001" "99" "" "" 3001 99
      (by decide) (by decide) rfl).1⟩

/-- C7: `view_all_books` emits, for every book whose `authorID` has a
matching author row, the book's title with that author's name and country;
a book whose `authorID` matches no author contributes nothing to the output
(inner join), and the database state is returned unchanged. -/
theorem view_all_books_join :
    ∀ (db : DB) (as : List AuthorRow) (bs : List BookRow),
      db.authorTab = some as → db.bookTab = some bs →
      ∃ rows, view_all_books db = .ok (db, [.bookDetails rows]) ∧
        rows = bs.filterMap (fun b =>
          (as.find? (fun a => a.id == b.authorID)).map
            (fun a => (b.title, a.name, a.country))) ∧
        (∀ b ∈ bs, (∀ a ∈ as, a.id ≠ b.authorID) →
          (as.find? (fun a => a.id == b.authorID)).map
            (fun a => (b.title, a.name, a.country)) = none) ∧
        ((as.map AuthorRow.id).Nodup →
          ∀ b ∈ bs, ∀ a ∈ as, a.id = b.authorID →
            (b.title, a.name, a.country) ∈ rows) := by
  intro db as bs ha hb
  refine ⟨_, ?_, rfl, ?_, ?_⟩
  · simp [view_all_books, ha, hb]
  · intro b _ hnone
    have : as.find? (fun a => a.id == b.authorID) = none := by
      rw [List.find?_eq_none]
      intro a hamem
      simpa using hnone a hamem
    rw [this]; rfl
  · intro hnodup b hbmem a hamem haid
    apply List.mem_filterMap.mpr
    exact ⟨b, hbmem, by rw [find?_of_nodup_ids as hnodup a hamem b.authorID haid]; rfl⟩

/-- Witness for C7: the joined output of the seeded store, where every seed
book finds its seed author, and book 3001 displays Charles Dickens of
England. -/
theorem view_all_books_join_witness :
    ∃ rows, view_all_books seededDB = .ok (seededDB, [.bookDetails rows]) ∧
      rows = seedBooks.filterMap (fun b =>
        (seedAuthors.find? (fun a => a.id == b.authorID)).map
          (fun a => (b.title, a.name, a.country))) ∧
      (∀ b ∈ seedBooks, (∀ a ∈ seedAuthors, a.id ≠ b.authorID) →
        (seedAuthors.find? (fun a => a.id == b.authorID)).map
          (fun a => (b.title, a.name, a.country)) = none) ∧
      ((seedAuthors.map AuthorRow.id).Nodup →
        ∀ b ∈ seedBooks, ∀ a ∈ seedAuthors, a.id = b.authorID →
          (b.title, a.name, a.country) ∈ rows) :=
  view_all_books_join seededDB seedAuthors seedBooks rfl rfl

lemma isEmpty_false_of_mem {α : Type} {x : α} {l : List α} (h : x ∈ l) :
    l.isEmpty = false := by
  cases l
  · cases h
  · rfl

/-- Counterexample to C2 as stated: `enter_book` strips the supplied title,
so entering the fresh id 4001 with title "X " (trailing blank) into the
seeded store stores and returns title "X", not the supplied "X ". -/
theorem round_trip_cex :
    enter_book seededDB "4001" "X " "1290" "5" =
      .ok (⟨some seedAuthors, some (seedBooks ++ [⟨4001, "X", 1290, 5⟩])⟩,
           [.addedBook "X"]) ∧
    search_books ⟨some seedAuthors, some (seedBooks ++ [⟨4001, "X", 1290, 5⟩])⟩ "X" =
      .ok (⟨some seedAuthors, some (seedBooks ++ [⟨4001, "X", 1290, 5⟩])⟩,
           [.searchResults [⟨4001, "X", 1290, 5⟩]]) ∧
    ("X" : String) ≠ "X " ∧
    (⟨4001, "X", 1290, 5⟩ : BookRow) ≠ ⟨4001, "X ", 1290, 5⟩ :=
  ⟨rfl, rfl, by decide, by decide⟩

/-- C2 (amended): adding a book whose id is fresh stores the stripped title
with the supplied authorID and quantity; searching with any stripped,
wildcard-free keyword contained (case-insensitively) in the stored title
returns a row set that contains exactly that stored row among the previous
rows; and when the supplied authorID resolves in the author table,
`view_all_books` displays the stored title with that author's name and
country. -/
theorem round_trip_amended :
    ∀ (db : DB) (bs : List BookRow) (idS tS aS qS kw : String) (id aid q : Int),
      pyInt idS = some id → pyInt aS = some aid → pyInt qS = some q →
      db.bookTab = some bs → (∀ b ∈ bs, b.id ≠ id) →
      pyStrip kw = kw → wildcardFree kw → containsCI (pyStrip tS) kw = true →
      enter_book db idS tS aS qS =
        .ok ({ db with bookTab := some (bs ++ [⟨id, pyStrip tS, aid, q⟩]) },
             [.addedBook (pyStrip tS)]) ∧
      (∃ rows,
        search_books { db with bookTab := some (bs ++ [⟨id, pyStrip tS, aid, q⟩]) } kw =
          .ok ({ db with bookTab := some (bs ++ [⟨id, pyStrip tS, aid, q⟩]) },
               [.searchResults rows]) ∧
        (⟨id, pyStrip tS, aid, q⟩ : BookRow) ∈ rows ∧
        (∀ r ∈ rows, r ∈ bs ++ [⟨id, pyStrip tS, aid, q⟩])) ∧
      (∀ (as : List AuthorRow) (a : AuthorRow), db.authorTab = some as →
        as.find? (fun x => x.id == aid) = some a →
        ∃ out,
          view_all_books { db with bookTab := some (bs ++ [⟨id, pyStrip tS, aid, q⟩]) } =
            .ok ({ db with bookTab := some (bs ++ [⟨id, pyStrip tS, aid, q⟩]) },
                 [.bookDetails out]) ∧
          (pyStrip tS, a.name, a.country) ∈ out) := by
  intro db bs idS tS aS qS kw id aid q hid ha hq hb hfresh hkw hwild hsub
  refine ⟨?_, ?_, ?_⟩
  · have hany : bs.any (fun b => b.id == id) = false := by
      rw [List.any_eq_false]
      intro b hbm
      simpa using hfresh b hbm
    simp [enter_book, enterBookRaw, catchPrint, hid, ha, hq, hb, hany]
  · have hlike : sqliteLike ("%" ++ kw ++ "%") (pyStrip tS) = true :=
      (sqliteLike_substring kw (pyStrip tS) hwild).mpr hsub
    have hrowmem : (⟨id, pyStrip tS, aid, q⟩ : BookRow) ∈
        (bs ++ [(⟨id, pyStrip tS, aid, q⟩ : BookRow)]).filter
          (fun b : BookRow => sqliteLike ("%" ++ kw ++ "%") b.title) := by
      apply List.mem_filter.mpr
      exact ⟨List.mem_append_right _ (by simp), hlike⟩
    refine ⟨((bs ++ [(⟨id, pyStrip tS, aid, q⟩ : BookRow)]).filter
        (fun b => sqliteLike ("%" ++ kw ++ "%") b.title) : List BookRow),
      ?_, hrowmem, fun r hr => List.mem_of_mem_filter hr⟩
    rw [search_books_eq _ (bs ++ [⟨id, pyStrip tS, aid, q⟩]) kw rfl, hkw,
      isEmpty_false_of_mem hrowmem]
    rfl
  · intro as a haTab hfind
    refine ⟨((bs ++ [(⟨id, pyStrip tS, aid, q⟩ : BookRow)]).filterMap
        (fun b : BookRow =>
          (as.find? (fun x => x.id == b.authorID)).map
            (fun x => (b.title, x.name, x.country))) :
        List (String × String × String)), ?_, ?_⟩
    · simp [view_all_books, haTab]
    · apply List.mem_filterMap.mpr
      refine ⟨⟨id, pyStrip tS, aid, q⟩, List.mem_append_right _ (by simp), ?_⟩
      show (as.find? (fun x => x.id == aid)).map
        (fun x => (pyStrip tS, x.name, x.country)) = some (pyStrip tS, a.name, a.country)
      rw [hfind]
      rfl

/-- Witness for C2 (amended): id 4001, title " Test Book " and author 1290 on
the seeded store; searching "Test" finds the stored row, and the view-all
output shows it under Charles Dickens of England. -/
theorem round_trip_amended_witness :
    enter_book seededDB "4001" " Test Book " "1290" "5" =
      .ok ({ seededDB with bookTab := some (seedBooks ++ [⟨4001, "Test Book", 1290, 5⟩]) },
           [.addedBook "Test Book"]) ∧
    (∃ rows,
      search_books { seededDB with
          bookTab := some (seedBooks ++ [⟨4001, "Test Book", 1290, 5⟩]) } "Test" =
        .ok ({ seededDB with
               bookTab := some (seedBooks ++ [⟨4001, "Test Book", 1290, 5⟩]) },
             [.searchResults rows]) ∧
      (⟨4001, "Test Book", 1290, 5⟩ : BookRow) ∈ rows ∧
      (∀ r ∈ rows, r ∈ seedBooks ++ [⟨4001, "Test Book", 1290, 5⟩])) ∧
    (∃ out,
      view_all_books { seededDB with
          bookTab := some (seedBooks ++ [⟨4001, "Test Book", 1290, 5⟩]) } =
        .ok ({ seededDB with
               bookTab := some (seedBooks ++ [⟨4001, "Test Book", 1290, 5⟩]) },
             [.bookDetails out]) ∧
      ("Test Book", "Charles Dickens", "England") ∈ out) := by
  have h := round_trip_amended seededDB seedBooks "4001" " Test Book " "1290" "5"
    "Test" 4001 1290 5 (by decide) (by decide) (by decide) rfl (by decide) rfl
    (by unfold wildcardFree; decide) (by decide)
  exact ⟨h.1, h.2.1, h.2.2 seedAuthors ⟨1290, "Charles Dickens", "England"⟩ rfl rfl⟩

lemma find?_map_update (as : List AuthorRow) (aid : Int) (a : AuthorRow)
    (haid : a.id = aid)
    (hfind : as.find? (fun x => x.id == aid) = some a) (nm co : String) :
    (as.map (fun x =>
      if x.id = a.id then { x with name := nm, country := co } else x)).find?
        (fun x => x.id == aid) = some { a with name := nm, country := co } := by
  induction as with
  | nil => simp at hfind
  | cons x t ih =>
    by_cases hx : x.id = aid
    · rw [List.find?_cons_of_pos _ (by simpa using hx)] at hfind
      injection hfind with hxa
      subst hxa
      rw [List.map_cons, if_pos rfl]
      exact List.find?_cons_of_pos _ (by simpa using hx)
    · rw [List.find?_cons_of_neg _ (by simpa using hx)] at hfind
      have hxa : ¬(x.id = a.id) := fun hc => hx (hc.trans haid)
      rw [List.map_cons, if_neg hxa, List.find?_cons_of_neg _ (by simpa using hx)]
      exact ih hfind

/-- Counterexample to C5 as stated: update option 4 strips the operator's
input before storing it, so supplying " C. Dickens " (surrounding blanks) as
the new name of the author linked to book 3001 stores "C. Dickens", not the
supplied string. -/
theorem update_author_cex :
    update_book seededDB "3001" "4" "" " C. Dickens " "" =
      .ok (⟨some [⟨1290, "C. Dickens", "England"⟩,
                  ⟨8937, "J.K. Rowling", "England"⟩,
                  ⟨2356, "C.S. Lewis", "Ireland"⟩,
                  ⟨6380, "J.R.R. Tolkien", "South Africa"⟩,
                  ⟨5620, "Lewis Carroll", "England"⟩], some seedBooks⟩,
           [.updated]) ∧
    ("C. Dickens" : String) ≠ " C. Dickens " :=
  ⟨rfl, by decide⟩

/-- C5 (amended): update option 4, when the join finds the author linked to
the given book id, rewrites that author's row with the stripped supplied
name and country, keeping the current value whenever the corresponding input
is blank after stripping; the book table is untouched, and since the author
row itself is mutated, `view_all_books` shows the new identity for every
book sharing that `authorID`; when the join finds no author, a not-found
line is printed and no table changes. -/
theorem update_author_identity :
    (∀ (db : DB) (as : List AuthorRow) (bs : List BookRow)
       (idS fS nS cS : String) (bid : Int) (a : AuthorRow),
       pyInt idS = some bid → db.authorTab = some as → db.bookTab = some bs →
       joinAuthorOfBook as bs bid = some a →
       update_book db idS "4" fS nS cS =
         .ok ({ db with authorTab := some (as.map (fun x =>
                 if x.id = a.id then
                   { x with
                     name := if pyStrip nS = "" then a.name else pyStrip nS,
                     country := if pyStrip cS = "" then a.country else pyStrip cS }
                 else x)) },
              [.updated]) ∧
       (∀ b ∈ bs, b.authorID = a.id →
         ∃ out,
           view_all_books { db with authorTab := some (as.map (fun x =>
               if x.id = a.id then
                 { x with
                   name := if pyStrip nS = "" then a.name else pyStrip nS,
                   country := if pyStrip cS = "" then a.country else pyStrip cS }
               else x)) } =
             .ok ({ db with authorTab := some (as.map (fun x =>
                     if x.id = a.id then
                       { x with
                         name := if pyStrip nS = "" then a.name else pyStrip nS,
                         country := if pyStrip cS = "" then a.country else pyStrip cS }
                     else x)) },
                  [.bookDetails out]) ∧
           (b.title, (if pyStrip nS = "" then a.name else pyStrip nS),
            (if pyStrip cS = "" then a.country else pyStrip cS)) ∈ out)) ∧
    (∀ (db : DB) (as : List AuthorRow) (bs : List BookRow)
       (idS fS nS cS : String) (bid : Int),
       pyInt idS = some bid → db.authorTab = some as → db.bookTab = some bs →
       joinAuthorOfBook as bs bid = none →
       update_book db idS "4" fS nS cS = .ok (db, [.authorNotFound, .updated])) := by
  constructor
  · intro db as bs idS fS nS cS bid a hid haTab hb hjoin
    have hrun : update_book db idS "4" fS nS cS =
        .ok ({ db with authorTab := some (as.map (fun x =>
                if x.id = a.id then
                  { x with
                    name := if pyStrip nS = "" then a.name else pyStrip nS,
                    country := if pyStrip cS = "" then a.country else pyStrip cS }
                else x)) },
             [.updated]) := by
      simp [update_book, updateBookRaw, catchPrint, hid, haTab, hb, hjoin]
    refine ⟨hrun, ?_⟩
    intro b hbmem hbaid
    have hfind0 : as.find? (fun x => x.id == a.id) = some a := by
      unfold joinAuthorOfBook at hjoin
      rcases hb0 : bs.find? (fun x => x.id == bid) with _ | b0
      · rw [hb0] at hjoin; cases hjoin
      · rw [hb0] at hjoin
        have haid0 : a.id = b0.authorID := by
          have := List.find?_some hjoin
          simpa using this
        rw [haid0]
        exact hjoin
    refine ⟨(bs.filterMap (fun b2 =>
        ((as.map (fun x =>
            if x.id = a.id then
              { x with
                name := if pyStrip nS = "" then a.name else pyStrip nS,
                country := if pyStrip cS = "" then a.country else pyStrip cS }
            else x)).find? (fun x => x.id == b2.authorID)).map
          (fun x => (b2.title, x.name, x.country)))), ?_, ?_⟩
    · simp [view_all_books, hb]
    · apply List.mem_filterMap.mpr
      refine ⟨b, hbmem, ?_⟩
      rw [hbaid, find?_map_update as a.id a rfl hfind0]
      rfl
  · intro db as bs idS fS nS cS bid hid haTab hb hjoin
    simp [update_book, updateBookRaw, catchPrint, hid, haTab, hb, hjoin]

/-- Witness for C5 (amended): renaming the author linked to book 3001 to
"C. Dickens" (blank country input keeps "England") rewrites author 1290's
row, and the view-all output then shows "C. Dickens" for book 3001, which
shares that author. -/
theorem update_author_identity_witness :
    update_book seededDB "3001" "4" "" "C. Dickens" "" =
      .ok ({ seededDB with authorTab := some (seedAuthors.map (fun x =>
              if x.id = (1290 : Int) then
                { x with name := "C. Dickens", country := "England" }
              else x)) },
           [.updated]) ∧
    (∃ out,
      view_all_books { seededDB with authorTab := some (seedAuthors.map (fun x =>
          if x.id = (1290 : Int) then
            { x with name := "C. Dickens", country := "England" }
          else x)) } =
        .ok ({ seededDB with authorTab := some (seedAuthors.map (fun x =>
                if x.id = (1290 : Int) then
                  { x with name := "C. Dickens", country := "England" }
                else x)) },
             [.bookDetails out]) ∧
      ("A Tale of Two Cities", "C. Dickens", "England") ∈ out) ∧
    update_book seededDB "9999" "4" "" "N" "C" =
      .ok (seededDB, [.authorNotFound, .updated]) := by
  have h := update_author_identity.1 seededDB seedAuthors seedBooks "3001" ""
    "C. Dickens" "" 3001 ⟨1290, "Charles Dickens", "England"⟩ (by decide) rfl rfl rfl
  exact ⟨h.1, h.2 ⟨3001, "A Tale of Two Cities", 1290, 30⟩ (by decide) rfl,
    update_author_identity.2 seededDB seedAuthors seedBooks "9999" "" "N" "C" 9999
      (by decide) rfl rfl rfl⟩

/-- Witness for C9: deleting book 3002 from the seeded store removes exactly
that row, and deleting the absent id 9999 is a reported no-op. -/
theorem delete_book_spec_witness :
    delete_book seededDB "3002" =
      .ok ({ seededDB with
             bookTab := some (seedBooks.filter (fun b => !(b.id == 3002))) },
           [.deleted 3002]) ∧
    delete_book seededDB "9999" = .ok (seededDB, [.deleted 9999]) :=
  ⟨(delete_book_spec seededDB seedBooks "3002" 3002 (by decide) rfl).1,
   (delete_book_spec seededDB seedBooks "9999" 9999 (by decide) rfl).2.1
     (by decide)⟩
